import Mathlib

/-!
Verification of the 3ds-friends-sysmodule friend service against its
natural-language specification.

The definitions below are a shallow embedding of the Rust sources of the
sysmodule.  Machine integers are modelled as natural numbers; the points
where the 32-bit width of the target (the 3DS runs 32-bit ARM, so both
u32 and usize are 32 bits wide) matters carry an explicit percent 2 ^ 32.
Fallible operations return Except or Option values.
-/

namespace FrdSysmodule

/-! ## SHA-1 (the sha1 crate used by src/src/frd/utils/friend_code.rs)

The friend-code checksum is computed from a SHA-1 digest.  The sysmodule
calls the external sha1 crate; the standard SHA-1 algorithm is embedded
here executably, over lists of bytes (naturals below 256). -/

/-- Rotate a 32-bit word left by n bits. -/
def rotl (n x : Nat) : Nat := ((x <<< n) ||| (x >>> (32 - n))) % 2 ^ 32

/-- Big-endian 8-byte encoding of a 64-bit length value. -/
def beBytes8 (n : Nat) : List Nat :=
  [(n >>> 56) % 256, (n >>> 48) % 256, (n >>> 40) % 256, (n >>> 32) % 256,
   (n >>> 24) % 256, (n >>> 16) % 256, (n >>> 8) % 256, n % 256]

/-- Big-endian 4-byte encoding of a 32-bit word. -/
def beBytes4 (n : Nat) : List Nat :=
  [(n >>> 24) % 256, (n >>> 16) % 256, (n >>> 8) % 256, n % 256]

/-- SHA-1 padding: append 0x80, zero bytes up to 56 mod 64, then the
bit length as a big-endian 64-bit value. -/
def sha1Pad (msg : List Nat) : List Nat :=
  msg ++ [0x80] ++ List.replicate ((119 - msg.length % 64) % 64) 0
      ++ beBytes8 (msg.length * 8)

/-- Group bytes into big-endian 32-bit words. -/
def bytesToWordsBE : List Nat → List Nat
  | a :: b :: c :: d :: rest =>
      (((a * 256 + b) * 256 + c) * 256 + d) :: bytesToWordsBE rest
  | _ => []

/-- Extend the 16 chunk words with n further schedule words. -/
def sha1Extend : Nat → Array Nat → Array Nat
  | 0, ws => ws
  | n + 1, ws =>
      let i := ws.size
      let w := rotl 1 ((ws.getD (i - 3) 0) ^^^ (ws.getD (i - 8) 0) ^^^
                       (ws.getD (i - 14) 0) ^^^ (ws.getD (i - 16) 0))
      sha1Extend n (ws.push w)

/-- The SHA-1 round function for round t. -/
def sha1F (t b c d : Nat) : Nat :=
  if t < 20 then (b &&& c) ||| ((b ^^^ 0xffffffff) &&& d)
  else if t < 40 then b ^^^ c ^^^ d
  else if t < 60 then (b &&& c) ||| (b &&& d) ||| (c &&& d)
  else b ^^^ c ^^^ d

/-- The SHA-1 round constant for round t. -/
def sha1K (t : Nat) : Nat :=
  if t < 20 then 0x5a827999
  else if t < 40 then 0x6ed9eba1
  else if t < 60 then 0x8f1bbcdc
  else 0xca62c1d6

/-- One SHA-1 compression step over a 64-byte chunk. -/
def sha1Chunk (h : Nat × Nat × Nat × Nat × Nat) (chunk : List Nat) :
    Nat × Nat × Nat × Nat × Nat :=
  let ws := sha1Extend 64 (Array.mk (bytesToWordsBE chunk))
  let st := (List.range 80).foldl
    (fun st t =>
      match st with
      | (a, b, c, d, e) =>
        let temp := (rotl 5 a + sha1F t b c d + e + sha1K t + ws.getD t 0) % 2 ^ 32
        (temp, a, rotl 30 b, c, d))
    h
  match h, st with
  | (h0, h1, h2, h3, h4), (a, b, c, d, e) =>
    ((h0 + a) % 2 ^ 32, (h1 + b) % 2 ^ 32, (h2 + c) % 2 ^ 32,
     (h3 + d) % 2 ^ 32, (h4 + e) % 2 ^ 32)

/-- Split a byte list into 64-byte chunks; the first argument is a
structural-recursion bound, at least the number of chunks. -/
def chunks64Aux : Nat → List Nat → List (List Nat)
  | 0, _ => []
  | n + 1, l => if l.isEmpty then [] else l.take 64 :: chunks64Aux n (l.drop 64)

/-- Split a byte list into 64-byte chunks. -/
def chunks64 (l : List Nat) : List (List Nat) :=
  chunks64Aux (l.length + 1) l

/-- The 20-byte SHA-1 digest of a byte list. -/
def sha1 (msg : List Nat) : List Nat :=
  let h := (chunks64 (sha1Pad msg)).foldl sha1Chunk
    (0x67452301, 0xefcdab89, 0x98badcfe, 0x10325476, 0xc3d2e1f0)
  match h with
  | (h0, h1, h2, h3, h4) =>
    beBytes4 h0 ++ beBytes4 h1 ++ beBytes4 h2 ++ beBytes4 h3 ++ beBytes4 h4

/-! ## Friend code codec (src/src/frd/utils/friend_code.rs) -/

/-- The error codes of src/src/frd/result.rs. -/
inductive FrdErrorCode where
  | InvalidPointer
  | InvalidPrincipalId
  | InvalidFriendCode
  | InvalidErrorCode
  | InvalidFriendListOrMyDataSaveFile
  | InvalidArguments
  | InvalidCommand
  | InvalidAccountSaveFile
  | MissingData
  deriving DecidableEq, Repr

/-- Little-endian byte encoding of a u32 value, as in to_le_bytes. -/
def u32ToLeBytes (n : Nat) : List Nat :=
  [n % 256, (n >>> 8) % 256, (n >>> 16) % 256, (n >>> 24) % 256]

/-- convert_principal_id_to_friend_code from friend_code.rs: reject id 0,
otherwise place the top 7 bits of the first SHA-1 digest byte of the
little-endian id bytes into bits 32..38 and the id into the low 32 bits. -/
def convert_principal_id_to_friend_code (principal_id : Nat) : Except FrdErrorCode Nat :=
  if principal_id = 0 then
    Except.error FrdErrorCode.InvalidPrincipalId
  else
    let hash := sha1 (u32ToLeBytes principal_id)
    let friend_code := (((hash.headD 0) >>> 1) <<< 32) ||| principal_id
    Except.ok friend_code

/-- validate_friend_code from friend_code.rs.  The cast of the u64 code to
u32 is the explicit percent 2 ^ 32. -/
def validate_friend_code (friend_code : Nat) : Bool :=
  if friend_code = 0 then
    false
  else
    let principal_id := friend_code % 2 ^ 32
    match convert_principal_id_to_friend_code principal_id with
    | Except.ok test_friend_code => friend_code == test_friend_code
    | Except.error _ => false

/-- convert_friend_code_to_principal_id from friend_code.rs. -/
def convert_friend_code_to_principal_id (friend_code : Nat) : Except FrdErrorCode Nat :=
  if validate_friend_code friend_code then
    Except.ok (friend_code % 2 ^ 32)
  else
    Except.error FrdErrorCode.InvalidFriendCode

instance {ε α : Type} [DecidableEq ε] [DecidableEq α] : DecidableEq (Except ε α) := fun a b =>
  match a, b with
  | Except.ok x, Except.ok y =>
      if h : x = y then isTrue (by rw [h]) else isFalse (by simp [h])
  | Except.error x, Except.error y =>
      if h : x = y then isTrue (by rw [h]) else isFalse (by simp [h])
  | Except.ok _, Except.error _ => isFalse (by simp)
  | Except.error _, Except.ok _ => isFalse (by simp)

/-! ## Data model (ctr crate frd types and src/src/frd/save/friend_list.rs)

The FriendKey, FriendProfile, GameKey, FriendInfo and SomeFriendThing
record types come from the support crate of the same author; they are
plain data records whose equality is the derived field-wise equality.
Payload types whose internals the service never inspects (Mii data,
UTF-16 screen names and comments, timestamps, character sets,
presence records, notification events) are modelled as opaque naturals
carried through unchanged. -/

abbrev Mii := Nat
abbrev ScreenName := Nat
abbrev FriendComment := Nat
abbrev TrivialCharacterSet := Nat
abbrev FormattedTimestamp := Nat
abbrev FriendPresence := Nat
abbrev NotificationEvent := Nat

/-- The all-zero Default value of a FriendPresence record. -/
def FriendPresence.default : FriendPresence := 0

structure FriendKey where
  principal_id : Nat
  padding : Nat
  local_friend_code : Nat
  deriving DecidableEq, Repr

structure FriendProfile where
  region : Nat
  country : Nat
  area : Nat
  language : Nat
  platform : Nat
  padding : List Nat
  deriving DecidableEq, Repr

/-- The all-zero Default value of a FriendProfile record. -/
def FriendProfile.default : FriendProfile := ⟨0, 0, 0, 0, 0, [0, 0, 0]⟩

structure GameKey where
  title_id : Nat
  version : Nat
  unk : Nat
  deriving DecidableEq, Repr

/-- The all-zero Default value of a GameKey record. -/
def GameKey.default : GameKey := ⟨0, 0, 0⟩

/-- MAX_FRIEND_COUNT from src/src/frd/save/friend_list.rs. -/
def MAX_FRIEND_COUNT : Nat := 100

/-- FriendEntry from src/src/frd/save/friend_list.rs, fields in source
order. -/
structure FriendEntry where
  friend_key : FriendKey
  unk1 : Nat
  friend_relationship : Nat
  friend_profile : FriendProfile
  padding : List Nat
  favorite_game : GameKey
  comment : FriendComment
  unk2 : List Nat
  timestamp1 : FormattedTimestamp
  timestamp2 : FormattedTimestamp
  last_online : FormattedTimestamp
  mii : Mii
  screen_name : ScreenName
  unk3 : Nat
  character_set : TrivialCharacterSet
  timestamp3 : FormattedTimestamp
  timestamp1_2 : FormattedTimestamp
  timestamp2_2 : FormattedTimestamp
  deriving DecidableEq, Repr

/-- The all-zero Default value of a FriendEntry record. -/
def FriendEntry.default : FriendEntry :=
  ⟨⟨0, 0, 0⟩, 0, 0, FriendProfile.default, [0, 0, 0], GameKey.default, 0,
   [0, 0, 0, 0, 0, 0], 0, 0, 0, 0, 0, 0, 0, 0, 0, 0⟩

/-- FRIEND_ATTRIBUTE from src/src/frd/save/friend_list.rs. -/
def FRIEND_ATTRIBUTE : List Nat := [0, 3, 0, 1, 1, 0]

/-- FriendEntry::get_attribute from src/src/frd/save/friend_list.rs. -/
def FriendEntry.get_attribute (e : FriendEntry) : Nat :=
  if 5 < e.friend_relationship then 3
  else FRIEND_ATTRIBUTE.getD e.friend_relationship 0

structure SomeFriendThing where
  friend_profile : FriendProfile
  favorite_game : GameKey
  unk2 : Nat
  comment : FriendComment
  unk3 : Nat
  last_online : FormattedTimestamp
  deriving DecidableEq, Repr

structure FriendInfo where
  friend_key : FriendKey
  some_timestamp : FormattedTimestamp
  friend_relationship : Nat
  unk1 : List Nat
  unk2 : Nat
  unk3 : SomeFriendThing
  screen_name : ScreenName
  character_set : TrivialCharacterSet
  unk4 : Nat
  mii : Mii
  deriving DecidableEq, Repr

/-- The all-zero Default value of a FriendInfo record. -/
def FriendInfo.default : FriendInfo :=
  ⟨⟨0, 0, 0⟩, 0, 0, [0, 0, 0], 0, ⟨FriendProfile.default, GameKey.default, 0, 0, 0, 0⟩,
   0, 0, 0, 0⟩

/-- The From FriendEntry for FriendInfo impl of
src/src/frd/save/friend_list.rs. -/
def FriendInfo.from_entry (friend_entry : FriendEntry) : FriendInfo :=
  { friend_key := friend_entry.friend_key
    some_timestamp := 0
    friend_relationship := 3
    unk1 := [0, 0, 0]
    unk2 := 0
    unk3 :=
      { friend_profile :=
          { region := friend_entry.friend_profile.region
            country := friend_entry.friend_profile.country
            area := friend_entry.friend_profile.area
            language := friend_entry.friend_profile.language
            platform := friend_entry.friend_profile.platform
            padding := [0, 0, 0] }
        favorite_game := friend_entry.favorite_game
        unk2 := 0
        comment := friend_entry.comment
        unk3 := 0
        last_online := friend_entry.last_online }
    screen_name := friend_entry.screen_name
    character_set := friend_entry.character_set
    unk4 := 0
    mii := friend_entry.mii }

/-! ## Friend Directory (src/src/frd/context/mock.rs and ctr.rs share
these two methods verbatim) -/

/-- FriendServiceContext::get_friend_by_friend_key: a linear scan
comparing the whole FriendKey with the derived equality. -/
def get_friend_by_friend_key (friend_list : List FriendEntry) (friend_key : FriendKey) :
    Option FriendEntry :=
  friend_list.find? (fun friend_entry => decide (friend_entry.friend_key = friend_key))

/-- FriendServiceContext::get_friend_keys: the friend keys in list order
(the FriendKeyCache rebuild keeps exactly these, in order). -/
def get_friend_keys (friend_list : List FriendEntry) : List FriendKey :=
  friend_list.map FriendEntry.friend_key

/-! ## Session state (src/src/frd/context/shared.rs) -/

/-- SessionContext from shared.rs, fields in source order.  The cached
authentication and locate responses are opaque payloads. -/
structure SessionContext where
  last_game_authentication_response : Option Nat
  last_service_locator_response : Option Nat
  static_buffer : List Nat
  process_id : Nat
  client_sdk_version : Nat
  notification_mask : Nat
  server_time_interval : Nat
  client_event : Option Nat
  client_event_queue : List NotificationEvent
  deriving DecidableEq, Repr

/-- SessionContext::new from shared.rs. -/
def SessionContext.new : SessionContext :=
  ⟨none, none, [], 0, 0, 0, 0, none, []⟩

/-! ## IPC requests and header validation

ThreadCommandParser lives in the support crate, outside this
repository's src tree; its validation methods are modelled from the
spec. -/

/-- A decoded request as the frd:u handlers see it: the decoded header
fields (command id, normal word count, translate word count), the
normal parameter words in pop order, the id and decoded contents of the
translated static buffer, and the kernel-translated process id. -/
structure Request where
  command_id : Nat
  normal_params : Nat
  translate_params : Nat
  params : List Nat
  static_buffer_id : Nat
  friend_key_buffer : List FriendKey
  process_id : Nat
  deriving DecidableEq, Repr

/-- Modelled from the spec: ThreadCommandParser::validate_header (support
crate, not under src/) compares the decoded header's command id, normal
word count and buffer (translate) word count with the counts a handler
declares, and rejects the request with InvalidCommand on any
mismatch. -/
def validate_header (req : Request) (command_id normal_params translate_params : Nat) :
    Except FrdErrorCode Unit :=
  if req.command_id = command_id ∧ req.normal_params = normal_params ∧
      req.translate_params = translate_params then
    Except.ok ()
  else
    Except.error FrdErrorCode.InvalidCommand

/-- Modelled from the spec: ThreadCommandParser::validate_buffer_id
(support crate, not under src/) checks that the translate parameter at
the given position is a static-buffer descriptor carrying the expected
buffer id; a mismatch is also InvalidCommand. -/
def validate_buffer_id (req : Request) (_param_number buffer_id : Nat) :
    Except FrdErrorCode Unit :=
  if req.static_buffer_id = buffer_id then
    Except.ok ()
  else
    Except.error FrdErrorCode.InvalidCommand

/-- Modelled from the spec: every command has a fixed signature; the
official SetNotificationMask request carries one normal parameter word
(the mask) and no buffers. -/
def set_notification_mask_signature : Nat × Nat := (1, 0)

/-! ## frd:u handlers (src/src/frd/frdu.rs)

Each definition below embeds one match arm of handle_frdu_request.  The
reply marshalling through the session static buffer is omitted; each
handler returns the sequence of values it writes out (and the updated
session state where it mutates one). -/

/-- The per-key value of the GetFriendProfile batch query
(frdu.rs, the closure at lines 374..383). -/
def friend_profile_of_key (friend_list : List FriendEntry) (friend_key : FriendKey) :
    FriendProfile :=
  match get_friend_by_friend_key friend_list friend_key with
  | some friend => friend.friend_profile
  | none => FriendProfile.default

/-- FrdUCommand::GetFriendProfile (frdu.rs lines 366..391): clamp the
requested count to MAX_FRIEND_COUNT, then map each of the first
max_out_count keys to its profile, defaulting on a miss. -/
def getFriendProfile (friend_list : List FriendEntry) (friend_keys : List FriendKey)
    (requested : Nat) : List FriendProfile :=
  let max_out_count := min requested MAX_FRIEND_COUNT
  (friend_keys.take max_out_count).map (friend_profile_of_key friend_list)

/-- The per-key value of the GetFriendRelationship batch query
(frdu.rs lines 403..408). -/
def friend_relationship_of_key (friend_list : List FriendEntry) (friend_key : FriendKey) :
    Nat :=
  match get_friend_by_friend_key friend_list friend_key with
  | some friend => friend.friend_relationship
  | none => 0

/-- FrdUCommand::GetFriendRelationship (frdu.rs lines 392..417). -/
def getFriendRelationship (friend_list : List FriendEntry) (friend_keys : List FriendKey)
    (requested : Nat) : List Nat :=
  let max_out_count := min requested MAX_FRIEND_COUNT
  (friend_keys.take max_out_count).map (friend_relationship_of_key friend_list)

/-- The per-key value of the GetFriendAttributeFlags batch query
(frdu.rs lines 428..433). -/
def friend_attribute_of_key (friend_list : List FriendEntry) (friend_key : FriendKey) :
    Nat :=
  match get_friend_by_friend_key friend_list friend_key with
  | some friend => friend.get_attribute
  | none => 0

/-- FrdUCommand::GetFriendAttributeFlags (frdu.rs lines 418..442). -/
def getFriendAttributeFlags (friend_list : List FriendEntry) (friend_keys : List FriendKey)
    (requested : Nat) : List Nat :=
  let max_out_count := min requested MAX_FRIEND_COUNT
  (friend_keys.take max_out_count).map (friend_attribute_of_key friend_list)

/-- The per-key value of the GetFriendFavoriteGame batch query
(frdu.rs lines 483..488). -/
def favorite_game_of_key (friend_list : List FriendEntry) (friend_key : FriendKey) :
    GameKey :=
  match get_friend_by_friend_key friend_list friend_key with
  | some friend => friend.favorite_game
  | none => GameKey.default

/-- FrdUCommand::GetFriendFavoriteGame (frdu.rs lines 472..497). -/
def getFriendFavoriteGame (friend_list : List FriendEntry) (friend_keys : List FriendKey)
    (requested : Nat) : List GameKey :=
  let max_out_count := min requested MAX_FRIEND_COUNT
  (friend_keys.take max_out_count).map (favorite_game_of_key friend_list)

/-- FrdUCommand::GetFriendPresence (frdu.rs lines 257..277): validates
the header shape (1 normal word, 2 translate words) and the buffer id,
then emits one default presence per clamped key. -/
def handle_get_friend_presence (req : Request) : Except FrdErrorCode (List FriendPresence) :=
  match validate_header req 0x12 1 2 with
  | Except.error e => Except.error e
  | Except.ok _ =>
    match validate_buffer_id req 2 0 with
    | Except.error e => Except.error e
    | Except.ok _ =>
      let max_out_count := min (req.params.headD 0) MAX_FRIEND_COUNT
      Except.ok ((req.friend_key_buffer.take max_out_count).map
        (fun _ => FriendPresence.default))

/-- FrdUCommand::SetNotificationMask (frdu.rs lines 614..620): stores
the first popped word into the session's notification mask and returns
success.  The handler performs no header or shape validation. -/
def handle_set_notification_mask (req : Request) (session : SessionContext) :
    Except FrdErrorCode SessionContext :=
  Except.ok { session with notification_mask := req.params.headD 0 }

/-- FrdUCommand::SetClientSdkVersion (frdu.rs lines 934..944): validates
the header shape (1 normal word, 2 translate words), then stores the
popped SDK version and the translated process id in the session. -/
def handle_set_client_sdk_version (req : Request) (session : SessionContext) :
    Except FrdErrorCode SessionContext :=
  match validate_header req 0x32 1 2 with
  | Except.error e => Except.error e
  | Except.ok _ =>
    Except.ok { session with
      client_sdk_version := req.params.headD 0
      process_id := req.process_id }

/-- The per-key FriendInfo of FrdUCommand::GetFriendInfo (frdu.rs lines
517..535): scan the friend list for a matching principal id alone and
convert the entry, defaulting when no principal id matches. -/
def get_friend_info_entry (friend_list : List FriendEntry) (friend_key : FriendKey) :
    FriendInfo :=
  (friend_list.findSome? (fun friend =>
    if friend.friend_key.principal_id = friend_key.principal_id then
      some (FriendInfo.from_entry friend)
    else
      none)).getD FriendInfo.default

/-- FrdUCommand::GetEventNotification (frdu.rs lines 621..652): copy the
oldest queued events into the caller's output buffer, bounded by the
requested maximum and by the buffer's length, then clear the whole
queue.  The result is the written reply slice paired with the queue
left behind. -/
def get_event_notification (client_event_queue : List NotificationEvent)
    (notification_out : List NotificationEvent) (max_notification_count : Nat) :
    List NotificationEvent × List NotificationEvent :=
  let written := ((notification_out.zip client_event_queue).take
    max_notification_count).map Prod.snd
  (written, [])

/-- The usize of the target platform is 32 bits wide (the sysmodule runs
on 32-bit ARM), so usize additions wrap at this modulus. -/
def USIZE_MOD : Nat := 2 ^ 32

/-- FrdUCommand::GetFriendKeyList (frdu.rs lines 240..256): slice the
friend-key snapshot between min(offset, len) and
min(start + requested, len) and reply with the slice and its length.
The start + requested addition is 32-bit usize arithmetic and wraps;
a wrapped end below start makes the Rust range slice panic, modelled
here as none. -/
def getFriendKeyList (friend_keys : List FriendKey)
    (friend_list_offset requested_number_of_friends : Nat) :
    Option (List FriendKey × Nat) :=
  let start := min friend_list_offset friend_keys.length
  let stop := min ((start + requested_number_of_friends) % USIZE_MOD) friend_keys.length
  if start ≤ stop then
    some ((friend_keys.drop start).take (stop - start), stop - start)
  else
    none

/-! ## Connectivity state machine (src/src/frd/wifi) -/

/-- WiFiConnectionStatus from src/src/frd/wifi/connection_status.rs. -/
inductive WiFiConnectionStatus where
  | Idle
  | Connecting
  | Connected
  | Disconnecting
  deriving DecidableEq, Repr

/-- get_wifi_state from src/src/frd/wifi/state.rs, match arms in source
order. -/
def get_wifi_state (ndm_wifi_state : Nat) (wifi_connection_status : WiFiConnectionStatus) :
    Nat :=
  match ndm_wifi_state, wifi_connection_status with
  | 0, WiFiConnectionStatus.Connecting => 2
  | 0, WiFiConnectionStatus.Connected => 2
  | 0, WiFiConnectionStatus.Disconnecting => 2
  | 1, WiFiConnectionStatus.Connecting => 2
  | 1, WiFiConnectionStatus.Connected => 2
  | 1, WiFiConnectionStatus.Disconnecting => 2
  | 2, WiFiConnectionStatus.Idle => 1
  | 2, _ => 0
  | _, _ => 3

/-- The connectivity fields of FriendServiceContext that
set_wifi_connection_status reads and writes. -/
structure WifiContext where
  ndm_wifi_state : Nat
  wifi_connection_status : WiFiConnectionStatus
  deriving DecidableEq, Repr

/-- set_wifi_connection_status from src/src/frd/wifi/state.rs.  The
result pairs the updated context with the number of signal_event calls
made on the shared ndm wifi event handle. -/
def set_wifi_connection_status (ctx : WifiContext)
    (next_wifi_connection_status : WiFiConnectionStatus) : WifiContext × Nat :=
  if ctx.wifi_connection_status ≠ next_wifi_connection_status then
    let old_state := get_wifi_state ctx.ndm_wifi_state ctx.wifi_connection_status
    let updated := { ctx with wifi_connection_status := next_wifi_connection_status }
    let new_state := get_wifi_state updated.ndm_wifi_state updated.wifi_connection_status
    if old_state ≠ new_state then (updated, 1) else (updated, 0)
  else
    (ctx, 0)

/-! ## Helper lemmas -/

/-- A friend code put together from a checksum in the high bits and a
32-bit principal id recovers the principal id under the u32 cast. -/
theorem lor_shiftLeft_mod (a b : Nat) (hb : b < 2 ^ 32) :
    ((a <<< 32) ||| b) % 2 ^ 32 = b := by
  apply Nat.eq_of_testBit_eq
  intro i
  rw [Nat.testBit_mod_two_pow, Nat.testBit_lor, Nat.testBit_shiftLeft]
  by_cases h : i < 32
  · simp [h, Nat.not_le.mpr h]
  · have hbi : b.testBit i = false :=
      Nat.testBit_lt_two_pow
        (lt_of_lt_of_le hb (Nat.pow_le_pow_right (by norm_num) (Nat.le_of_not_lt h)))
    simp [h, hbi]

/-- Projecting the second components of a zip keeps a prefix of the
second list. -/
theorem map_snd_zip_eq_take {α β : Type} (a : List α) (b : List β) :
    (a.zip b).map Prod.snd = b.take a.length := by
  induction a generalizing b with
  | nil => simp
  | cons x xs ih =>
    cases b with
    | nil => simp
    | cons y ys => simp [ih]

/-- Indexing a clamped batch output below the effective count reads the
per-key value at the same input position. -/
theorem getElem?_map_take {α β : Type} (f : α → β) (l : List α) (m i : Nat)
    (h : i < m) : ((l.take m).map f)[i]? = (l[i]?).map f := by
  rw [List.getElem?_map, List.getElem?_take, if_pos h]

/-! ## Theorems for the claims -/

/-- C1: for every batch query over friend keys (GetFriendProfile as the
cited representative, together with GetFriendRelationship,
GetFriendAttributeFlags and GetFriendFavoriteGame), for every input key
list and requested maximum, the output has exactly
min(requested_max, 100, keys.len()) elements, in the same order as the
input keys, and is empty when the key list is empty or the requested
maximum is 0. -/
theorem batch_query_clamp (fl : List FriendEntry) (keys : List FriendKey) (req : Nat) :
    (getFriendProfile fl keys req).length = min req (min 100 keys.length)
  ∧ (∀ i : Nat, i < min req (min 100 keys.length) →
      (getFriendProfile fl keys req)[i]? = (keys[i]?).map (friend_profile_of_key fl))
  ∧ (keys = [] → getFriendProfile fl keys req = [])
  ∧ (req = 0 → getFriendProfile fl keys req = [])
  ∧ (getFriendRelationship fl keys req).length = min req (min 100 keys.length)
  ∧ (getFriendAttributeFlags fl keys req).length = min req (min 100 keys.length)
  ∧ (getFriendFavoriteGame fl keys req).length = min req (min 100 keys.length) := by
  refine ⟨?_, ?_, ?_, ?_, ?_, ?_, ?_⟩
  · simp [getFriendProfile, MAX_FRIEND_COUNT]
  · intro i hi
    exact getElem?_map_take _ keys (min req MAX_FRIEND_COUNT) i
      (by simp [MAX_FRIEND_COUNT]; omega)
  · intro h
    simp [getFriendProfile, h]
  · intro h
    simp [getFriendProfile, h]
  · simp [getFriendRelationship, MAX_FRIEND_COUNT]
  · simp [getFriendAttributeFlags, MAX_FRIEND_COUNT]
  · simp [getFriendFavoriteGame, MAX_FRIEND_COUNT]

/-- Witness for C1 at concrete inputs: one unknown key with requested
maximum 5 gives a singleton output holding the default profile, and an
empty key list gives the empty output. -/
theorem batch_query_clamp_witness :
    (getFriendProfile [] [⟨7, 0, 9⟩] 5)[0]? = some FriendProfile.default
  ∧ getFriendProfile [] [] 3 = [] := by
  have h1 := (batch_query_clamp [] [⟨7, 0, 9⟩] 5).2.1 0 (by decide)
  have h2 := (batch_query_clamp [] [] 3).2.2.1 rfl
  refine ⟨?_, h2⟩
  simpa [friend_profile_of_key, get_friend_by_friend_key] using h1

/-- C2: a key absent from the friend list yields the operation's
default at its position (relationship byte 0, all-zero favorite-game
record), never an error: the handlers are total. -/
theorem batch_query_default_on_miss (fl : List FriendEntry) (keys : List FriendKey)
    (req i : Nat) (k : FriendKey) (hk : keys[i]? = some k) (hi : i < min req 100)
    (hmiss : get_friend_by_friend_key fl k = none) :
    (getFriendRelationship fl keys req)[i]? = some 0
  ∧ (getFriendFavoriteGame fl keys req)[i]? = some GameKey.default := by
  have hrel : ((keys.take (min req MAX_FRIEND_COUNT)).map
      (friend_relationship_of_key fl))[i]? = (keys[i]?).map (friend_relationship_of_key fl) :=
    getElem?_map_take _ keys _ i (by simp [MAX_FRIEND_COUNT]; omega)
  have hfav : ((keys.take (min req MAX_FRIEND_COUNT)).map
      (favorite_game_of_key fl))[i]? = (keys[i]?).map (favorite_game_of_key fl) :=
    getElem?_map_take _ keys _ i (by simp [MAX_FRIEND_COUNT]; omega)
  constructor
  · rw [getFriendRelationship]
    rw [hrel, hk]
    simp [friend_relationship_of_key, hmiss]
  · rw [getFriendFavoriteGame]
    rw [hfav, hk]
    simp [favorite_game_of_key, hmiss]

/-- Witness for C2: the sole key of a query against the empty friend
list misses and produces relationship 0 and the all-zero game key. -/
theorem batch_query_default_on_miss_witness :
    (getFriendRelationship [] [⟨7, 0, 9⟩] 1)[0]? = some 0
  ∧ (getFriendFavoriteGame [] [⟨7, 0, 9⟩] 1)[0]? = some GameKey.default :=
  batch_query_default_on_miss [] [⟨7, 0, 9⟩] 1 0 ⟨7, 0, 9⟩ rfl (by decide) rfl

/-- C3: for every principal id in 1..2^32 the friend-code conversion
round-trips back to the same principal id, and principal id 0 is
rejected with InvalidPrincipalId. -/
theorem friend_code_round_trip (id : Nat) (h1 : 1 ≤ id) (h2 : id < 2 ^ 32) :
    (convert_principal_id_to_friend_code id).bind convert_friend_code_to_principal_id =
      Except.ok id
  ∧ convert_principal_id_to_friend_code 0 = Except.error FrdErrorCode.InvalidPrincipalId := by
  refine ⟨?_, rfl⟩
  have hid0 : id ≠ 0 := by omega
  have hconv : convert_principal_id_to_friend_code id =
      Except.ok (((((sha1 (u32ToLeBytes id)).headD 0) >>> 1) <<< 32) ||| id) := by
    simp [convert_principal_id_to_friend_code, hid0]
  have hmod : (((((sha1 (u32ToLeBytes id)).headD 0) >>> 1) <<< 32) ||| id) % 2 ^ 32 = id :=
    lor_shiftLeft_mod _ id h2
  have hne : ((((sha1 (u32ToLeBytes id)).headD 0) >>> 1) <<< 32) ||| id ≠ 0 := by
    intro h
    rw [h] at hmod
    simp at hmod
    omega
  have hval : validate_friend_code
      (((((sha1 (u32ToLeBytes id)).headD 0) >>> 1) <<< 32) ||| id) = true := by
    rw [validate_friend_code]
    rw [if_neg hne]
    simp only [hmod, hconv]
    simp
  rw [hconv]
  show convert_friend_code_to_principal_id _ = _
  rw [convert_friend_code_to_principal_id, if_pos hval, hmod]

/-- Witness for C3 at principal id 0xaabbccdd, the repository's own test
vector. -/
theorem friend_code_round_trip_witness :
    (convert_principal_id_to_friend_code 0xaabbccdd).bind
      convert_friend_code_to_principal_id = Except.ok 0xaabbccdd :=
  (friend_code_round_trip 0xaabbccdd (by norm_num) (by norm_num)).1

set_option maxRecDepth 8000

/-- The repository's own codec test vector: principal id 0xaabbccdd maps
to friend code 0x38aabbccdd (checksum byte 0x38). -/
theorem convert_principal_id_example :
    convert_principal_id_to_friend_code 0xaabbccdd = Except.ok 0x38aabbccdd := by
  decide

/-- C4 counterexample: a SetNotificationMask request whose declared
counts (5 normal words, 7 translate words) differ from the command's
fixed one-word no-buffer signature is not rejected: the handler
succeeds and still mutates the session's notification mask. -/
theorem set_notification_mask_skips_shape_validation :
    ((5, 7) ≠ set_notification_mask_signature)
  ∧ handle_set_notification_mask ⟨0x21, 5, 7, [0xABCD], 0, [], 0⟩ SessionContext.new =
      Except.ok { SessionContext.new with notification_mask := 0xABCD }
  ∧ ({ SessionContext.new with notification_mask := 0xABCD } ≠ SessionContext.new)
  ∧ ∀ e : FrdErrorCode,
      handle_set_notification_mask ⟨0x21, 5, 7, [0xABCD], 0, [], 0⟩ SessionContext.new ≠
        Except.error e := by
  refine ⟨by decide, by decide, by decide, ?_⟩
  intro e h
  simp [handle_set_notification_mask] at h

/-- C4 amended: handlers that call validate_header (SetClientSdkVersion
and GetFriendPresence here) reject a request whose declared word counts
differ from their fixed signature with InvalidCommand before any side
effect, but SetNotificationMask performs no shape validation at all and
stores the popped mask whatever the declared counts are. -/
theorem header_validation_rejects_mismatch :
    (∀ (req : Request) (session : SessionContext), req.command_id = 0x32 →
      req.normal_params ≠ 1 ∨ req.translate_params ≠ 2 →
      handle_set_client_sdk_version req session = Except.error FrdErrorCode.InvalidCommand)
  ∧ (∀ req : Request, req.command_id = 0x12 →
      req.normal_params ≠ 1 ∨ req.translate_params ≠ 2 →
      handle_get_friend_presence req = Except.error FrdErrorCode.InvalidCommand)
  ∧ (∀ (req : Request) (session : SessionContext),
      handle_set_notification_mask req session =
        Except.ok { session with notification_mask := req.params.headD 0 }) := by
  refine ⟨?_, ?_, ?_⟩
  · intro req session hcmd hmismatch
    have hv : validate_header req 0x32 1 2 = Except.error FrdErrorCode.InvalidCommand := by
      rw [validate_header, if_neg]
      intro hall
      rcases hmismatch with h | h
      · exact h hall.2.1
      · exact h hall.2.2
    rw [handle_set_client_sdk_version, hv]
  · intro req hcmd hmismatch
    have hv : validate_header req 0x12 1 2 = Except.error FrdErrorCode.InvalidCommand := by
      rw [validate_header, if_neg]
      intro hall
      rcases hmismatch with h | h
      · exact h hall.2.1
      · exact h hall.2.2
    rw [handle_get_friend_presence, hv]
  · intro req session
    rfl

/-- Witness for the amended C4: a malformed SetClientSdkVersion request
is rejected and a SetNotificationMask request sets the mask. -/
theorem header_validation_rejects_mismatch_witness :
    handle_set_client_sdk_version ⟨0x32, 9, 9, [], 0, [], 0⟩ SessionContext.new =
      Except.error FrdErrorCode.InvalidCommand
  ∧ handle_set_notification_mask ⟨0x21, 1, 0, [44], 0, [], 0⟩ SessionContext.new =
      Except.ok { SessionContext.new with notification_mask := 44 } :=
  ⟨(header_validation_rejects_mismatch).1 ⟨0x32, 9, 9, [], 0, [], 0⟩ SessionContext.new
      rfl (Or.inl (by decide)),
   (header_validation_rejects_mismatch).2.2 ⟨0x21, 1, 0, [44], 0, [], 0⟩ SessionContext.new⟩

/-- C5 counterexample: with one friend whose key is
(principal id 1, padding 0, local friend code 5), querying the directory
with the key (1, 0, 5) finds the entry while (1, 0, 6) does not, even
though both keys carry principal id 1: the lookup is not keyed on the
principal id alone. -/
theorem lookup_distinguishes_equal_principal_ids :
    ((⟨1, 0, 5⟩ : FriendKey).principal_id = (⟨1, 0, 6⟩ : FriendKey).principal_id)
  ∧ get_friend_by_friend_key [{ FriendEntry.default with friend_key := ⟨1, 0, 5⟩ }]
      ⟨1, 0, 5⟩ = some { FriendEntry.default with friend_key := ⟨1, 0, 5⟩ }
  ∧ get_friend_by_friend_key [{ FriendEntry.default with friend_key := ⟨1, 0, 5⟩ }]
      ⟨1, 0, 6⟩ = none
  ∧ get_friend_by_friend_key [{ FriendEntry.default with friend_key := ⟨1, 0, 5⟩ }]
      ⟨1, 0, 5⟩ ≠
    get_friend_by_friend_key [{ FriendEntry.default with friend_key := ⟨1, 0, 5⟩ }]
      ⟨1, 0, 6⟩ := by
  decide

/-- C5 amended: the directory lookup compares the whole FriendKey, so a
returned entry's key equals the queried key exactly; only the
GetFriendInfo scan matches on the principal id alone, and there two
keys with equal principal ids always yield the same result. -/
theorem directory_lookup_full_key (fl : List FriendEntry) (k1 k2 : FriendKey)
    (e : FriendEntry) :
    (get_friend_by_friend_key fl k1 = some e → e ∈ fl ∧ e.friend_key = k1)
  ∧ (k1.principal_id = k2.principal_id →
      get_friend_info_entry fl k1 = get_friend_info_entry fl k2) := by
  constructor
  · intro h
    refine ⟨List.mem_of_find?_eq_some h, ?_⟩
    have hp := List.find?_some h
    exact of_decide_eq_true hp
  · intro h
    simp only [get_friend_info_entry, h]

/-- Witness for the amended C5: the found entry's key equals the query
key, and two equal-principal-id keys give the same GetFriendInfo entry
even against a list where only one of them matches in full. -/
theorem directory_lookup_full_key_witness :
    ({ FriendEntry.default with friend_key := ⟨1, 0, 5⟩ } ∈
        [{ FriendEntry.default with friend_key := ⟨1, 0, 5⟩ }]
      ∧ ({ FriendEntry.default with friend_key := ⟨1, 0, 5⟩ } : FriendEntry).friend_key =
        ⟨1, 0, 5⟩)
  ∧ get_friend_info_entry [{ FriendEntry.default with friend_key := ⟨1, 0, 5⟩ }] ⟨1, 0, 5⟩ =
      get_friend_info_entry [{ FriendEntry.default with friend_key := ⟨1, 0, 5⟩ }] ⟨1, 0, 6⟩ :=
  ⟨(directory_lookup_full_key [{ FriendEntry.default with friend_key := ⟨1, 0, 5⟩ }]
      ⟨1, 0, 5⟩ ⟨1, 0, 6⟩ { FriendEntry.default with friend_key := ⟨1, 0, 5⟩ }).1 (by decide),
   (directory_lookup_full_key [{ FriendEntry.default with friend_key := ⟨1, 0, 5⟩ }]
      ⟨1, 0, 5⟩ ⟨1, 0, 6⟩ FriendEntry.default).2 rfl⟩

/-- C6: the derived composite WiFi status follows the specified table:
ndm state 0 or 1 gives 3 on Idle and 2 otherwise, and ndm state 2 gives
1 on Idle and 0 otherwise. -/
theorem wifi_state_table (s : WiFiConnectionStatus) :
    get_wifi_state 0 s = (if s = WiFiConnectionStatus.Idle then 3 else 2)
  ∧ get_wifi_state 1 s = (if s = WiFiConnectionStatus.Idle then 3 else 2)
  ∧ get_wifi_state 2 s = (if s = WiFiConnectionStatus.Idle then 1 else 0) := by
  cases s <;> exact ⟨by decide, by decide, by decide⟩

/-- C7: set_wifi_connection_status signals the shared wake handle
exactly once when the next status differs from the current one and the
composite state computed before the swap differs from the one computed
after, and signals nothing otherwise; when next equals current the
context is left unchanged, and in every case the ndm state is untouched
and the stored status ends up equal to next. -/
theorem wifi_signal_on_observable_transition (ctx : WifiContext)
    (next : WiFiConnectionStatus) :
    ((set_wifi_connection_status ctx next).2 =
      if ctx.wifi_connection_status ≠ next ∧
          get_wifi_state ctx.ndm_wifi_state ctx.wifi_connection_status ≠
            get_wifi_state ctx.ndm_wifi_state next
        then 1 else 0)
  ∧ (ctx.wifi_connection_status = next → (set_wifi_connection_status ctx next).1 = ctx)
  ∧ (set_wifi_connection_status ctx next).1.ndm_wifi_state = ctx.ndm_wifi_state
  ∧ (set_wifi_connection_status ctx next).1.wifi_connection_status = next := by
  by_cases h : ctx.wifi_connection_status = next
  · simp [set_wifi_connection_status, h]
  · by_cases h2 : get_wifi_state ctx.ndm_wifi_state ctx.wifi_connection_status =
        get_wifi_state ctx.ndm_wifi_state next
    · simp [set_wifi_connection_status, h, h2]
    · simp [set_wifi_connection_status, h, h2]

/-- Witness for C7: moving from Idle to Connecting under ndm state 1
changes the composite state from 3 to 2 and signals exactly once, while
setting Idle again signals nothing and leaves the context unchanged. -/
theorem wifi_signal_on_observable_transition_witness :
    (set_wifi_connection_status ⟨1, WiFiConnectionStatus.Idle⟩
        WiFiConnectionStatus.Connecting).2 = 1
  ∧ (set_wifi_connection_status ⟨1, WiFiConnectionStatus.Idle⟩
        WiFiConnectionStatus.Idle).1 = ⟨1, WiFiConnectionStatus.Idle⟩ := by
  have h1 := (wifi_signal_on_observable_transition ⟨1, WiFiConnectionStatus.Idle⟩
    WiFiConnectionStatus.Connecting).1
  have h2 := (wifi_signal_on_observable_transition ⟨1, WiFiConnectionStatus.Idle⟩
    WiFiConnectionStatus.Idle).2.1 rfl
  refine ⟨?_, h2⟩
  rw [h1]
  decide

/-- C8: draining a session's notification queue returns the
min(max, queue length) oldest events in their queue (FIFO) order and
always leaves the queue empty, provided the caller's output buffer can
hold the returned events; in particular a queue holding a then b
drained with max 1 returns only a and is left empty. -/
theorem notification_drain (client_event_queue notification_out : List NotificationEvent)
    (max_notification_count : Nat)
    (hbuf : min max_notification_count client_event_queue.length ≤
      notification_out.length) :
    (get_event_notification client_event_queue notification_out max_notification_count).1 =
      client_event_queue.take max_notification_count
  ∧ (get_event_notification client_event_queue notification_out
      max_notification_count).1.length =
      min max_notification_count client_event_queue.length
  ∧ (get_event_notification client_event_queue notification_out
      max_notification_count).2 = [] := by
  have hfst : (get_event_notification client_event_queue notification_out
      max_notification_count).1 =
      client_event_queue.take (min max_notification_count notification_out.length) := by
    show (((notification_out.zip client_event_queue).take
      max_notification_count).map Prod.snd) = _
    rw [List.map_take, map_snd_zip_eq_take, List.take_take]
  refine ⟨?_, ?_, rfl⟩
  · rw [hfst, List.take_eq_take]
    omega
  · rw [hfst, List.length_take]
    omega

/-- Witness for C8: the queue holding 10 then 20 drained with max 1
into a two-slot buffer returns only 10 and is left empty. -/
theorem notification_drain_witness :
    min 1 ([10, 20] : List NotificationEvent).length ≤ ([0, 0] : List NotificationEvent).length
  ∧ (get_event_notification [10, 20] [0, 0] 1).1 = [10]
  ∧ (get_event_notification [10, 20] [0, 0] 1).2 = [] := by
  have h := notification_drain [10, 20] [0, 0] 1 (by decide)
  exact ⟨by decide, by rw [h.1]; decide, h.2.2⟩

/-- C9: the derived attribute is the table [0, 3, 0, 1, 1, 0] indexed by
the relationship level for levels 0 through 5, and 3 for every greater
level. -/
theorem attribute_mapping (e : FriendEntry) :
    (e.friend_relationship = 0 → e.get_attribute = 0)
  ∧ (e.friend_relationship = 1 → e.get_attribute = 3)
  ∧ (e.friend_relationship = 2 → e.get_attribute = 0)
  ∧ (e.friend_relationship = 3 → e.get_attribute = 1)
  ∧ (e.friend_relationship = 4 → e.get_attribute = 1)
  ∧ (e.friend_relationship = 5 → e.get_attribute = 0)
  ∧ (5 < e.friend_relationship → e.get_attribute = 3) := by
  refine ⟨?_, ?_, ?_, ?_, ?_, ?_, ?_⟩ <;> intro h <;>
    simp [FriendEntry.get_attribute, FRIEND_ATTRIBUTE, h]

/-- Witness for C9 at relationship levels 1 and 7. -/
theorem attribute_mapping_witness :
    ({ FriendEntry.default with friend_relationship := 1 } : FriendEntry).get_attribute = 3
  ∧ ({ FriendEntry.default with friend_relationship := 7 } : FriendEntry).get_attribute = 3 :=
  ⟨(attribute_mapping { FriendEntry.default with friend_relationship := 1 }).2.1 rfl,
   (attribute_mapping { FriendEntry.default with friend_relationship := 7 }).2.2.2.2.2.2
     (by decide)⟩

/-- C10: evaluation of GetFriendKeyList at the inputs where the claim
fails on the 32-bit target.  With one friend, offset 1 and requested
count 0xffffffff, the usize addition start + requested wraps to 0, the
slice bounds become 1..0 and the range slice panics (none); the claim
instead promises the empty slice.  Offset at the list length with a
small requested count does produce the empty slice. -/
theorem get_friend_key_list_wraparound :
    getFriendKeyList [⟨1, 0, 5⟩] 1 (2 ^ 32 - 1) = none
  ∧ getFriendKeyList [⟨1, 0, 5⟩] 1 1 = some ([], 0)
  ∧ getFriendKeyList [⟨1, 0, 5⟩] 0 (2 ^ 32 - 1) = some ([⟨1, 0, 5⟩], 1) := by
  refine ⟨by decide, by decide, by decide⟩

end FrdSysmodule
